import Mathlib

/-!
Verification of the anomaly-detection engine of `backend/anomalyDetection.js`.

The JavaScript source is shallowly embedded below.  Design choices:

* JavaScript numbers are embedded as exact rationals (`ℚ`).  The only place
  where IEEE special values can arise on finite inputs is the division inside
  the percentage-increase computations (division by zero yields `Infinity`,
  `-Infinity` or `NaN`); those computations are therefore modelled with the
  type `JVal` which adjoins the three special values to `ℚ`.
* `Math.sqrt` appears only through `calculateStats`' `stdDev`, and `stdDev`
  is only ever used in comparisons of the shape `x > mean + k * stdDev` with
  a nonnegative constant `k`.  The embedding stores the radicand (`variance`)
  and decides the comparison by the equivalent squared form
  `mean < x ∧ k^2 * variance < (x - mean)^2`; the lemma `gtMeanPlusStd_iff`
  proves this equivalent to the real-number comparison with `Real.sqrt`.
* `Math.round` rounds half-integers toward positive infinity, i.e.
  `Math.round x = ⌊x + 1/2⌋`.
* `new Date(t).getHours()` is modelled on integer epoch milliseconds with a
  zero UTC offset: `(t / 3600000) mod 24` (floor division).
* Locale-dependent `toLocaleDateString` strings (the recommendation
  `description` fields) are presentation-only and are omitted from the
  `Recommendation` record; every other field is embedded.
-/

/-- A JavaScript number that may be one of the IEEE special values.  Finite
inputs only hit the special values through division by zero. -/
inductive JVal where
  | num (q : ℚ)
  | posInf
  | negInf
  | nan
deriving DecidableEq

/-- JavaScript division of finite numbers: division by zero produces
`Infinity`, `-Infinity` or `NaN` according to the numerator's sign. -/
def jsDiv (n d : ℚ) : JVal :=
  if d ≠ 0 then JVal.num (n / d)
  else if 0 < n then JVal.posInf
  else if n < 0 then JVal.negInf
  else JVal.nan

/-- Multiplication of a JavaScript number by a positive finite constant
(the source only multiplies the division results by `100`). -/
def jmulPos (v : JVal) (c : ℚ) : JVal :=
  match v with
  | JVal.num q => JVal.num (q * c)
  | JVal.posInf => JVal.posInf
  | JVal.negInf => JVal.negInf
  | JVal.nan => JVal.nan

/-- Division of a JavaScript number by a positive finite constant
(the source only divides by the window size `5`). -/
def jdivPos (v : JVal) (c : ℚ) : JVal :=
  match v with
  | JVal.num q => JVal.num (q / c)
  | JVal.posInf => JVal.posInf
  | JVal.negInf => JVal.negInf
  | JVal.nan => JVal.nan

/-- `v > c` for a JavaScript number `v` and finite `c`: comparisons against
`NaN` are false, `Infinity` compares greater than every finite number. -/
def jgt (v : JVal) (c : ℚ) : Bool :=
  match v with
  | JVal.num q => decide (c < q)
  | JVal.posInf => true
  | JVal.negInf => false
  | JVal.nan => false

/-- `Math.round` as an integer: half-integers round toward `+∞`. -/
def jsRoundZ (q : ℚ) : ℤ := ⌊q + 1 / 2⌋

/-- `Math.round` as a rational (the source immediately divides the rounded
value again, e.g. `Math.round(x * 10) / 10`). -/
def jsRound (q : ℚ) : ℚ := (jsRoundZ q : ℚ)

/-- `Math.round(x * 10) / 10` lifted to JavaScript numbers:
`Math.round` is the identity on `Infinity`, `-Infinity` and `NaN`. -/
def jround1 (v : JVal) : JVal :=
  match v with
  | JVal.num q => JVal.num (jsRound (q * 10) / 10)
  | JVal.posInf => JVal.posInf
  | JVal.negInf => JVal.negInf
  | JVal.nan => JVal.nan

/-- `String(Math.round v)` for a JavaScript number, used in description
strings. -/
def jvalRoundStr (v : JVal) : String :=
  match v with
  | JVal.num q => toString (jsRoundZ q)
  | JVal.posInf => "Infinity"
  | JVal.negInf => "-Infinity"
  | JVal.nan => "NaN"

/-- `((cur - base) / base) * 100`, the percentage-increase computation used
by all three passes, with JavaScript division semantics. -/
def jsPct (cur base : ℚ) : JVal := jmulPos (jsDiv (cur - base) base) 100

/-- `new Date(t).getHours()` on epoch milliseconds, at UTC offset zero. -/
def getHours (t : ℤ) : ℕ := ((t.ediv 3600000).emod 24).toNat

/-- Day-type classification attached to every reading. -/
inductive DayType where
  | weekday
  | weekend
deriving DecidableEq

/-- One energy reading (`{timestamp, consumption, temperature, occupancy,
dayType}`). -/
structure Reading where
  timestamp : ℤ
  consumption : ℚ
  temperature : ℚ
  occupancy : ℤ
  dayType : DayType
deriving DecidableEq

/-- Result of `calculateStats`.  The source stores
`stdDev = Math.sqrt(variance)`; the embedding stores the radicand
`variance` and exposes `stdDev` as `Real.sqrt variance`. -/
structure Stats where
  mean : ℚ
  variance : ℚ
  min : ℚ
  max : ℚ
deriving DecidableEq

/-- The `stdDev` field of the source, recovered from the stored radicand. -/
noncomputable def Stats.stdDev (s : Stats) : ℝ := Real.sqrt (s.variance : ℝ)

/-- `calculateStats(values)`: all-zero on empty input, otherwise arithmetic
mean, population variance (division by `count`), and the extremes. -/
def calculateStats (values : List ℚ) : Stats :=
  if values.length = 0 then { mean := 0, variance := 0, min := 0, max := 0 }
  else
    let count : ℚ := (values.length : ℚ)
    let mean := values.sum / count
    let variance := (values.map fun value => (value - mean) ^ 2).sum / count
    { mean := mean
      variance := variance
      min := values.foldl min (values.headD 0)
      max := values.foldl max (values.headD 0) }

/-- One bucket of `createHourlyProfile`'s result (`{mean, stdDev, count}`,
with `variance` standing for `stdDev` squared as in `Stats`). -/
structure HourStats where
  mean : ℚ
  variance : ℚ
  count : ℕ
deriving DecidableEq

/-- `createHourlyProfile(data)`: bucket consumption values by hour of day
and compute `calculateStats` per bucket, recording the sample count. -/
def createHourlyProfile (data : List Reading) (hour : ℕ) : HourStats :=
  let values := (data.filter fun entry => decide (getHours entry.timestamp = hour)).map
    fun entry => entry.consumption
  let stats := calculateStats values
  { mean := stats.mean, variance := stats.variance, count := values.length }

/-- Decides `m + k * Real.sqrt v < x` (that is, `x > mean + k * stdDev`)
by the squared comparison; see `gtMeanPlusStd_iff`. -/
def gtMeanPlusStd (x m k v : ℚ) : Bool :=
  decide (m < x) && decide (k ^ 2 * v < (x - m) ^ 2)

/-- Anomaly categories. -/
inductive AnomalyType where
  | spike
  | drift
  | schedule
deriving DecidableEq

/-- A detected anomaly. -/
structure Anomaly where
  type : AnomalyType
  timestamp : ℤ
  consumption : ℚ
  expected : ℚ
  percentageIncrease : JVal
  severity : ℕ
  description : String
deriving DecidableEq

/-- The body of the spike loop for a consecutive pair `(previous, current)`:
flag when the percentage increase over the previous reading exceeds 30 and
the current consumption exceeds `mean + 2 * stdDev` of the baseline. -/
def spikeCheck (stats : Stats) (previous current : Reading) : Option Anomaly :=
  let percentageIncrease := jsPct current.consumption previous.consumption
  if jgt percentageIncrease 30 && gtMeanPlusStd current.consumption stats.mean 2 stats.variance then
    some { type := AnomalyType.spike
           timestamp := current.timestamp
           consumption := current.consumption
           expected := previous.consumption
           percentageIncrease := jround1 percentageIncrease
           severity := if jgt percentageIncrease 50 then 3 else 2
           description :=
             "Sudden energy spike of " ++ jvalRoundStr percentageIncrease ++ "% detected" }
  else none

/-- Iteration `i` of the spike loop (`for i = 1; i < data.length`), picking
the baseline stats by the current reading's day type. -/
def spikeStep (weekdayStats weekendStats : Stats) (data : List Reading) (i : ℕ) :
    Option Anomaly :=
  match data[i]?, data[i - 1]? with
  | some current, some previous =>
      let stats := if decide (current.dayType = DayType.weekday) then weekdayStats
        else weekendStats
      spikeCheck stats previous current
  | _, _ => none

/-- The spike pass: the loop runs over indices `1 .. data.length - 1`. -/
def spikePass (weekdayStats weekendStats : Stats) (data : List Reading) : List Anomaly :=
  ((List.range data.length).drop 1).filterMap (spikeStep weekdayStats weekendStats data)

/-- The strictly-increasing check of the drift pass: the source loop breaks
as soon as some `window[j].consumption <= window[j-1].consumption`. -/
def isIncreasingList (values : List ℚ) : Bool :=
  (values.zip values.tail).all fun pair => decide (pair.1 < pair.2)

/-- The drift window size (`windowSize = 5`, six readings per window). -/
def windowSize : ℕ := 5

/-- Iteration `i` of the drift loop: a window of six consecutive readings
ending at index `i` must be strictly increasing, its final consumption must
exceed `mean + 1.5 * stdDev` of the final reading's baseline, and the
average daily increase over the window must exceed 3 percent. -/
def driftStep (weekdayStats weekendStats : Stats) (data : List Reading) (i : ℕ) :
    Option Anomaly :=
  if i < windowSize then none
  else
    match data[i]?, data[i - windowSize]? with
    | some lastRead, some firstRead =>
        let window := (data.drop (i - windowSize)).take (windowSize + 1)
        let stats := if decide (lastRead.dayType = DayType.weekday) then weekdayStats
          else weekendStats
        if isIncreasingList (window.map fun r => r.consumption)
            && gtMeanPlusStd lastRead.consumption stats.mean (3 / 2) stats.variance then
          let percentageIncrease := jsPct lastRead.consumption firstRead.consumption
          let avgDailyIncrease := jdivPos percentageIncrease (windowSize : ℚ)
          if jgt avgDailyIncrease 3 then
            some { type := AnomalyType.drift
                   timestamp := lastRead.timestamp
                   consumption := lastRead.consumption
                   expected := firstRead.consumption
                   percentageIncrease := jround1 percentageIncrease
                   severity := if jgt avgDailyIncrease 5 then 2 else 1
                   description := "Gradual efficiency loss of "
                     ++ jvalRoundStr percentageIncrease ++ "% over 5 days" }
          else none
        else none
    | _, _ => none

/-- The drift pass: the loop runs over indices `windowSize .. data.length - 1`. -/
def driftPass (weekdayStats weekendStats : Stats) (data : List Reading) : List Anomaly :=
  ((List.range data.length).drop windowSize).filterMap (driftStep weekdayStats weekendStats data)

/-- The body of the schedule loop for one reading: skip hours with fewer
than 3 samples; flag when consumption exceeds `mean + 2.5 * stdDev` of the
hour's profile and the hour's mean is below 0.7 times the all-hour average. -/
def scheduleCheck (profile : ℕ → HourStats) (entry : Reading) : Option Anomaly :=
  let hour := getHours entry.timestamp
  let p := profile hour
  if p.count < 3 then none
  else
    if gtMeanPlusStd entry.consumption p.mean (5 / 2) p.variance then
      let allHoursAvg := ((List.range 24).map fun h => (profile h).mean).sum / 24
      if p.mean < (7 / 10) * allHoursAvg then
        let percentageIncrease := jsPct entry.consumption p.mean
        some { type := AnomalyType.schedule
               timestamp := entry.timestamp
               consumption := entry.consumption
               expected := p.mean
               percentageIncrease := jround1 percentageIncrease
               severity := if jgt percentageIncrease 70 then 2 else 1
               description := "Abnormal energy use during off-hours ("
                 ++ toString hour ++ ":00)" }
      else none
    else none

/-- The schedule pass: every reading is checked against the hourly profile
matching its day type. -/
def schedulePass (weekdayProfile weekendProfile : ℕ → HourStats) (data : List Reading) :
    List Anomaly :=
  data.filterMap fun entry =>
    scheduleCheck
      (if decide (entry.dayType = DayType.weekday) then weekdayProfile else weekendProfile)
      entry

/-- `data.filter(entry => entry.dayType === 'weekday')`. -/
def weekdayReadings (data : List Reading) : List Reading :=
  data.filter fun entry => decide (entry.dayType = DayType.weekday)

/-- `data.filter(entry => entry.dayType === 'weekend')`. -/
def weekendReadings (data : List Reading) : List Reading :=
  data.filter fun entry => decide (entry.dayType = DayType.weekend)

/-- The weekday baseline statistics over all weekday consumption values. -/
def weekdayBaseline (data : List Reading) : Stats :=
  calculateStats ((weekdayReadings data).map fun entry => entry.consumption)

/-- The weekend baseline statistics over all weekend consumption values. -/
def weekendBaseline (data : List Reading) : Stats :=
  calculateStats ((weekendReadings data).map fun entry => entry.consumption)

/-- The ternary `dayType === 'weekday' ? weekdayStats : weekendStats`
applied to the two baselines. -/
def baselineFor (data : List Reading) (dayType : DayType) : Stats :=
  if decide (dayType = DayType.weekday) then weekdayBaseline data else weekendBaseline data

/-- The hourly profile built from the readings of one day type. -/
def profileFor (data : List Reading) (dayType : DayType) : ℕ → HourStats :=
  createHourlyProfile (data.filter fun entry => decide (entry.dayType = dayType))

/-- `detectAnomalies(data)`: with fewer than 7 readings return the empty
list; otherwise run the spike, drift and schedule passes in that order
and concatenate their output. -/
def detectAnomalies (data : List Reading) : List Anomaly :=
  if data.length < 7 then []
  else
    spikePass (weekdayBaseline data) (weekendBaseline data) data
      ++ driftPass (weekdayBaseline data) (weekendBaseline data) data
      ++ schedulePass (createHourlyProfile (weekdayReadings data))
          (createHourlyProfile (weekendReadings data)) data

/-- The building descriptor passed alongside the anomaly list.  The source
receives it but never reads any of its fields. -/
structure BuildingData where
  id : String
  name : String
  location : String
  area : ℚ
deriving DecidableEq

/-- A generated recommendation.  `impactDollars` is the rounded dollar
amount embedded in the `impact` sentence; the locale-dependent
`description` sentence (it formats a date via `toLocaleDateString`) is
presentation-only and omitted. -/
structure Recommendation where
  id : String
  title : String
  action : String
  impact : String
  impactDollars : ℤ
  urgency : String
  anomalyType : AnomalyType
deriving DecidableEq

/-- `list.sort((a, b) => f(b) - f(a))[0]` for a stable sort: the first
element attaining the maximal key (strictly-greater keys displace the
current best, ties keep the earlier element). -/
def firstMaxBy (f : Anomaly → ℤ) : List Anomaly → Option Anomaly
  | [] => none
  | a :: rest => some (rest.foldl (fun best x => if f best < f x then x else best) a)

/-- The spike branch: pick the most severe spike (ties: first in input
order) and emit one recommendation. -/
def spikeRecommendation (spikeAnomalies : List Anomaly) (now : ℤ) : Option Recommendation :=
  match firstMaxBy (fun a => (a.severity : ℤ)) spikeAnomalies with
  | none => none
  | some worstSpike =>
      let dollars := jsRoundZ ((worstSpike.consumption - worstSpike.expected) * 30 * (15 / 100))
      some { id := "spike-" ++ toString now
             title := "Potential Equipment Malfunction"
             action := "Schedule inspection of HVAC control systems and verify thermostat settings."
             impact := "Addressing this issue could save approximately $" ++ toString dollars
               ++ " per month if recurring."
             impactDollars := dollars
             urgency := if decide (worstSpike.severity = 3)
               then "High - Immediate attention recommended"
               else "Medium - Address within 1 week"
             anomalyType := AnomalyType.spike }

/-- The drift branch: pick the most recent drift anomaly by timestamp
(ties: first in input order) and emit one recommendation. -/
def driftRecommendation (driftAnomalies : List Anomaly) (now : ℤ) : Option Recommendation :=
  match firstMaxBy (fun a => a.timestamp) driftAnomalies with
  | none => none
  | some mostRecent =>
      let dollars := jsRoundZ ((mostRecent.consumption - mostRecent.expected) * 30 * (15 / 100))
      some { id := "drift-" ++ toString now
             title := "Gradual Efficiency Loss Detected"
             action := "Check for air leaks, inspect insulation integrity, and verify building automation schedules."
             impact := "Addressing this trend could save approximately $" ++ toString dollars
               ++ " per month."
             impactDollars := dollars
             urgency := if decide (mostRecent.severity = 2)
               then "Medium - Address within 1-2 weeks"
               else "Low - Schedule during next maintenance"
             anomalyType := AnomalyType.drift }

/-- `hourGroups[h]`: the schedule anomalies whose timestamp falls in hour
`h`, in input order (the source builds these groups with `push`). -/
def hourGroupAt (anomalies : List Anomaly) (h : ℕ) : List Anomaly :=
  anomalies.filter fun a => decide (getHours a.timestamp = h)

/-- The `Object.entries(hourGroups)` scan for the hour with the most
anomalies.  JavaScript enumerates integer-like keys in ascending numeric
order, so the scan visits hours `0, 1, ..., 23`; the strict `>` keeps the
first (lowest) hour among ties.  Hours with no anomalies have length 0 and
never displace the running maximum, so scanning all 24 hours coincides
with scanning only the populated keys. -/
def worstHourCount (anomalies : List Anomaly) : ℕ × ℕ :=
  (List.range 24).foldl
    (fun wm h => if (hourGroupAt anomalies h).length > wm.2 then (h, (hourGroupAt anomalies h).length) else wm)
    (0, 0)

/-- `averageExcess` at hour `h`: mean of `consumption - expected` over the
hour's group. -/
def avgExcessAt (anomalies : List Anomaly) (h : ℕ) : ℚ :=
  ((hourGroupAt anomalies h).map fun a => a.consumption - a.expected).sum
    / ((hourGroupAt anomalies h).length : ℚ)

/-- The schedule branch: group by hour, pick the hour with the most
anomalies, and emit one recommendation from that hour's average excess. -/
def scheduleRecommendation (scheduleAnomalies : List Anomaly) (now : ℤ) :
    Option Recommendation :=
  if scheduleAnomalies.length = 0 then none
  else
    let wm := worstHourCount scheduleAnomalies
    let worstHour := wm.1
    let maxCount := wm.2
    if maxCount > 0 then
      let averageExcess := avgExcessAt scheduleAnomalies worstHour
      let dollars := jsRoundZ (averageExcess * (maxCount : ℚ) * 4 * (15 / 100))
      some { id := "schedule-" ++ toString now
             title := "Off-hours Energy Usage"
             action := "Review building occupancy schedule and automation system settings. Check for unauthorized equipment operation."
             impact := "Optimizing scheduling could save approximately $" ++ toString dollars
               ++ " per month."
             impactDollars := dollars
             urgency := if maxCount > 3
               then "Medium - Investigate within 2 weeks"
               else "Low - Investigate during next maintenance cycle"
             anomalyType := AnomalyType.schedule }
    else none

/-- `generateRecommendations(anomalies, buildingData)`: empty input gives
an empty list; otherwise the spike, drift and schedule branches each emit
at most one recommendation, in that order.  `buildingData` is never read;
`now` stands for the `Date.now()` clock used only in the identifiers. -/
def generateRecommendations (anomalies : List Anomaly) (buildingData : BuildingData)
    (now : ℤ) : List Recommendation :=
  if anomalies.length = 0 then []
  else
    let spikeAnomalies := anomalies.filter fun a => decide (a.type = AnomalyType.spike)
    let driftAnomalies := anomalies.filter fun a => decide (a.type = AnomalyType.drift)
    let scheduleAnomalies := anomalies.filter fun a => decide (a.type = AnomalyType.schedule)
    (spikeRecommendation spikeAnomalies now).toList
      ++ (driftRecommendation driftAnomalies now).toList
      ++ (scheduleRecommendation scheduleAnomalies now).toList

/-- The savings record (`{energy, cost, carbon}`). -/
structure Savings where
  energy : ℚ
  cost : ℚ
  carbon : ℚ
deriving DecidableEq

/-- `Σ (anomaly.consumption - anomaly.expected)` over the anomaly list;
contributions are not clamped at zero. -/
def totalExcess (anomalies : List Anomaly) : ℚ :=
  (anomalies.map fun a => a.consumption - a.expected).sum

/-- `calculateSavings(anomalies, buildingData)`: zero on the empty list,
otherwise round the summed excess (1 decimal), its cost at $0.15/kWh
(2 decimals) and its carbon at 0.4 kg/kWh (1 decimal).  `buildingData` is
never read. -/
def calculateSavings (anomalies : List Anomaly) (buildingData : BuildingData) : Savings :=
  if anomalies.length = 0 then { energy := 0, cost := 0, carbon := 0 }
  else
    let totalExcessEnergy := totalExcess anomalies
    let costSavings := totalExcessEnergy * (15 / 100)
    let carbonSavings := totalExcessEnergy * (4 / 10)
    { energy := jsRound (totalExcessEnergy * 10) / 10
      cost := jsRound (costSavings * 100) / 100
      carbon := jsRound (carbonSavings * 10) / 10 }

/-- The squared comparison `gtMeanPlusStd` decides exactly the source
condition `x > mean + k * Math.sqrt variance` (for nonnegative `k` and
nonnegative radicand). -/
lemma gtMeanPlusStd_iff (x m k v : ℚ) (hk : 0 ≤ k) (hv : 0 ≤ v) :
    gtMeanPlusStd x m k v = true ↔
      (m : ℝ) + (k : ℝ) * Real.sqrt (v : ℝ) < (x : ℝ) := by
  unfold gtMeanPlusStd
  rw [Bool.and_eq_true, decide_eq_true_eq, decide_eq_true_eq]
  have hk' : (0 : ℝ) ≤ (k : ℝ) := by exact_mod_cast hk
  have hv' : (0 : ℝ) ≤ (v : ℝ) := by exact_mod_cast hv
  have hsq : ((k : ℝ) * Real.sqrt (v : ℝ)) ^ 2 = (k : ℝ) ^ 2 * (v : ℝ) := by
    rw [mul_pow, Real.sq_sqrt hv']
  have hnn : (0 : ℝ) ≤ (k : ℝ) * Real.sqrt (v : ℝ) :=
    mul_nonneg hk' (Real.sqrt_nonneg _)
  constructor
  · rintro ⟨h1, h2⟩
    have h1' : (m : ℝ) < (x : ℝ) := by exact_mod_cast h1
    have h2' : (k : ℝ) ^ 2 * (v : ℝ) < ((x : ℝ) - (m : ℝ)) ^ 2 := by
      exact_mod_cast h2
    have hpos : (0 : ℝ) < (x : ℝ) - (m : ℝ) := by linarith
    have hlt : (k : ℝ) * Real.sqrt (v : ℝ) < (x : ℝ) - (m : ℝ) := by
      by_contra hge
      push_neg at hge
      have : ((x : ℝ) - (m : ℝ)) ^ 2 ≤ ((k : ℝ) * Real.sqrt (v : ℝ)) ^ 2 :=
        pow_le_pow_left₀ (le_of_lt hpos) hge 2
      rw [hsq] at this
      linarith
    linarith
  · intro h
    have h1 : (m : ℝ) < (x : ℝ) := by nlinarith [hnn]
    have hpos : (0 : ℝ) < (x : ℝ) - (m : ℝ) := by linarith
    have hlt : (k : ℝ) * Real.sqrt (v : ℝ) < (x : ℝ) - (m : ℝ) := by linarith
    have h2 : (k : ℝ) ^ 2 * (v : ℝ) < ((x : ℝ) - (m : ℝ)) ^ 2 := by
      calc (k : ℝ) ^ 2 * (v : ℝ) = ((k : ℝ) * Real.sqrt (v : ℝ)) ^ 2 := hsq.symm
        _ < ((x : ℝ) - (m : ℝ)) ^ 2 := by
            exact pow_lt_pow_left₀ hlt hnn (by norm_num)
    refine ⟨by exact_mod_cast h1, ?_⟩
    have h2'' : ((k : ℚ) ^ 2 * v : ℚ) < ((x - m : ℚ)) ^ 2 := by
      have := h2
      push_cast at this
      exact_mod_cast this
    exact h2''

/-- The variance computed by `calculateStats` is a nonnegative rational
(it is an average of squares), so it is a legitimate radicand. -/
lemma calculateStats_variance_nonneg (values : List ℚ) :
    0 ≤ (calculateStats values).variance := by
  unfold calculateStats
  split
  · norm_num
  · simp only
    apply div_nonneg
    · apply List.sum_nonneg
      intro x hx
      obtain ⟨y, _, rfl⟩ := List.mem_map.mp hx
      positivity
    · positivity

/-- The variance of every hourly-profile bucket is nonnegative. -/
lemma createHourlyProfile_variance_nonneg (data : List Reading) (hour : ℕ) :
    0 ≤ (createHourlyProfile data hour).variance := by
  unfold createHourlyProfile
  exact calculateStats_variance_nonneg _

/-- `getHours` always lands in `0 .. 23`. -/
lemma getHours_lt (t : ℤ) : getHours t < 24 := by
  unfold getHours
  have h1 : 0 ≤ (t.ediv 3600000).emod 24 := Int.emod_nonneg _ (by norm_num)
  have h2 : (t.ediv 3600000).emod 24 < 24 := Int.emod_lt_of_pos _ (by norm_num)
  omega

/-- `jsPct` at a nonzero base is the finite rational percentage. -/
lemma jsPct_num (cur base : ℚ) (h : base ≠ 0) :
    jsPct cur base = JVal.num ((cur - base) / base * 100) := by
  unfold jsPct jsDiv jmulPos
  rw [if_pos h]

/-- The strictly-increasing test of the drift loop holds exactly when
consecutive values strictly increase. -/
lemma isIncreasingList_iff : ∀ values : List ℚ,
    isIncreasingList values = true ↔ values.Chain' (· < ·)
  | [] => by simp [isIncreasingList]
  | [a] => by simp [isIncreasingList]
  | a :: b :: rest => by
      have ih := isIncreasingList_iff (b :: rest)
      unfold isIncreasingList at ih ⊢
      simp only [List.tail_cons, List.zip_cons_cons, List.all_cons, Bool.and_eq_true,
        decide_eq_true_eq, List.chain'_cons] at ih ⊢
      tauto

/-- `foldl min` stays below its initial value. -/
lemma foldl_min_le_init : ∀ (l : List ℚ) (a : ℚ), l.foldl min a ≤ a
  | [], a => le_refl a
  | x :: xs, a => le_trans (foldl_min_le_init xs (min a x)) (min_le_left a x)

/-- `foldl min` is below every list element. -/
lemma foldl_min_le_mem : ∀ (l : List ℚ) (a x : ℚ), x ∈ l → l.foldl min a ≤ x
  | y :: ys, a, x, hx => by
      rcases List.mem_cons.mp hx with h | h
      · subst h
        exact le_trans (foldl_min_le_init ys (min a x)) (min_le_right a x)
      · exact foldl_min_le_mem ys (min a y) x h

/-- `foldl min` is the initial value or some list element. -/
lemma foldl_min_mem : ∀ (l : List ℚ) (a : ℚ), l.foldl min a = a ∨ l.foldl min a ∈ l
  | [], a => Or.inl rfl
  | x :: xs, a => by
      rcases foldl_min_mem xs (min a x) with h | h
      · rcases min_cases a x with ⟨hm, _⟩ | ⟨hm, _⟩
        · exact Or.inl (by rw [List.foldl_cons, h, hm])
        · exact Or.inr (by rw [List.foldl_cons, h, hm]; exact List.mem_cons_self x xs)
      · exact Or.inr (List.mem_cons_of_mem x h)

/-- `foldl max` stays above its initial value. -/
lemma foldl_max_ge_init : ∀ (l : List ℚ) (a : ℚ), a ≤ l.foldl max a
  | [], a => le_refl a
  | x :: xs, a => le_trans (le_max_left a x) (foldl_max_ge_init xs (max a x))

/-- `foldl max` is above every list element. -/
lemma foldl_max_ge_mem : ∀ (l : List ℚ) (a x : ℚ), x ∈ l → x ≤ l.foldl max a
  | y :: ys, a, x, hx => by
      rcases List.mem_cons.mp hx with h | h
      · subst h
        exact le_trans (le_max_right a x) (foldl_max_ge_init ys (max a x))
      · exact foldl_max_ge_mem ys (max a y) x h

/-- `foldl max` is the initial value or some list element. -/
lemma foldl_max_mem : ∀ (l : List ℚ) (a : ℚ), l.foldl max a = a ∨ l.foldl max a ∈ l
  | [], a => Or.inl rfl
  | x :: xs, a => by
      rcases foldl_max_mem xs (max a x) with h | h
      · rcases max_cases a x with ⟨hm, _⟩ | ⟨hm, _⟩
        · exact Or.inl (by rw [List.foldl_cons, h, hm])
        · exact Or.inr (by rw [List.foldl_cons, h, hm]; exact List.mem_cons_self x xs)
      · exact Or.inr (List.mem_cons_of_mem x h)

/-- Specification of the `Object.entries` maximum scan: on a strictly
ascending key list, the fold yields a running maximum, the result key
attains it, and every key strictly before the winning key counts strictly
less (the strict `>` keeps the earliest, i.e. lowest, key among ties). -/
lemma worstHour_fold_spec (c : ℕ → ℕ) :
    ∀ (l : List ℕ) (w m : ℕ) (r : ℕ × ℕ),
      l.Pairwise (· < ·) →
      r = l.foldl (fun wm h => if c h > wm.2 then (h, c h) else wm) (w, m) →
      m ≤ r.2 ∧ (∀ h ∈ l, c h ≤ r.2) ∧
      (r = (w, m) ∨ (r.1 ∈ l ∧ c r.1 = r.2 ∧ m < r.2)) ∧
      (∀ h ∈ l, h < r.1 → m < r.2 → c h < r.2)
  | [], w, m, r, _, hr => by
      subst hr
      refine ⟨le_refl m, by simp, Or.inl rfl, by simp⟩
  | x :: xs, w, m, r, hp, hr => by
      rw [List.pairwise_cons] at hp
      obtain ⟨hx_lt, hp_tail⟩ := hp
      rw [List.foldl_cons] at hr
      by_cases hc : c x > m
      · rw [if_pos hc] at hr
        obtain ⟨ih1, ih2, ih3, ih4⟩ := worstHour_fold_spec c xs x (c x) r hp_tail hr
        refine ⟨le_trans (le_of_lt hc) ih1, ?_, ?_, ?_⟩
        · intro h hh
          rcases List.mem_cons.mp hh with h' | h'
          · subst h'; exact ih1
          · exact ih2 h h'
        · rcases ih3 with h3 | ⟨hmem, heq, hlt⟩
          · refine Or.inr ⟨?_, ?_, ?_⟩
            · rw [h3]; exact List.mem_cons_self x xs
            · rw [h3]
            · rw [h3]; exact hc
          · exact Or.inr ⟨List.mem_cons_of_mem x hmem, heq, lt_trans hc hlt⟩
        · intro h hh hlt1 _
          rcases List.mem_cons.mp hh with h' | h'
          · subst h'
            rcases ih3 with h3 | ⟨_, _, hlt⟩
            · rw [h3] at hlt1
              exact absurd hlt1 (lt_irrefl h)
            · exact hlt
          · rcases ih3 with h3 | ⟨_, _, hlt⟩
            · rw [h3] at hlt1
              exact absurd hlt1 (not_lt_of_gt (hx_lt h h'))
            · exact ih4 h h' hlt1 hlt
      · rw [if_neg hc] at hr
        push_neg at hc
        obtain ⟨ih1, ih2, ih3, ih4⟩ := worstHour_fold_spec c xs w m r hp_tail hr
        refine ⟨ih1, ?_, ?_, ?_⟩
        · intro h hh
          rcases List.mem_cons.mp hh with h' | h'
          · subst h'; exact le_trans hc ih1
          · exact ih2 h h'
        · rcases ih3 with h3 | ⟨hmem, heq, hlt⟩
          · exact Or.inl h3
          · exact Or.inr ⟨List.mem_cons_of_mem x hmem, heq, hlt⟩
        · intro h hh hlt1 hm
          rcases List.mem_cons.mp hh with h' | h'
          · subst h'
            exact lt_of_le_of_lt hc hm
          · exact ih4 h h' hlt1 hm

/-- Concrete anomaly whose consumption is below its expected value, used to
exhibit negative savings. -/
def negAnomaly : Anomaly :=
  { type := AnomalyType.drift, timestamp := 0, consumption := 0, expected := 10,
    percentageIncrease := JVal.num 0, severity := 1, description := "" }

/-- A throwaway building descriptor for concrete evaluations. -/
def someBuilding : BuildingData :=
  { id := "b1", name := "HQ", location := "x", area := 1000 }

/-- C5: `calculateSavings` returns `energy = round(excess, 1)`,
`cost = round(excess * 0.15, 2)` and `carbon = round(excess * 0.4, 1)` for
the unclamped signed excess `Σ (consumption - expected)`; an anomaly list
whose anomalies sit below their expected values yields three strictly
negative savings, and the empty list yields all zeros. -/
theorem c5_savings_formula :
    (∀ b : BuildingData, calculateSavings [] b = { energy := 0, cost := 0, carbon := 0 }) ∧
    (∀ (anomalies : List Anomaly) (b : BuildingData),
      calculateSavings anomalies b =
        { energy := jsRound (totalExcess anomalies * 10) / 10
          cost := jsRound (totalExcess anomalies * (15 / 100) * 100) / 100
          carbon := jsRound (totalExcess anomalies * (4 / 10) * 10) / 10 }) ∧
    (negAnomaly.consumption < negAnomaly.expected ∧
      (calculateSavings [negAnomaly] someBuilding).energy < 0 ∧
      (calculateSavings [negAnomaly] someBuilding).cost < 0 ∧
      (calculateSavings [negAnomaly] someBuilding).carbon < 0) := by
  refine ⟨fun b => by with_unfolding_all rfl, fun anomalies b => ?_, ?_⟩
  · by_cases h : anomalies.length = 0
    · rw [List.length_eq_zero] at h
      subst h
      with_unfolding_all rfl
    · unfold calculateSavings
      rw [if_neg h]
  · have hval : calculateSavings [negAnomaly] someBuilding =
        { energy := -10, cost := -3/2, carbon := -4 } := by with_unfolding_all rfl
    refine ⟨by norm_num [negAnomaly], ?_, ?_, ?_⟩ <;> rw [hval] <;> norm_num

/-- A weekday reading at day `day` (hour 0) with consumption `c`. -/
def wkReading (day : ℕ) (c : ℚ) : Reading :=
  { timestamp := (day : ℤ) * 86400000, consumption := c, temperature := 20, occupancy := 5,
    dayType := DayType.weekday }

/-- Seven weekday readings whose second reading follows a zero-consumption
reading. -/
def zeroPrevData : List Reading :=
  [wkReading 0 0, wkReading 1 50, wkReading 2 1, wkReading 3 1, wkReading 4 1,
   wkReading 5 1, wkReading 6 2]

/-- C6: on a 7-reading sequence whose reading at index 1 is preceded by a
zero-consumption reading, the spike pass divides by that zero without a
guard: the point is not skipped and no error is raised; instead the
percentage increase is the unbounded value `Infinity` and the reading is
flagged (severity 3, since `Infinity > 50`). -/
theorem c6_spike_divides_by_zero :
    zeroPrevData.length = 7 ∧
    (zeroPrevData[0]?.map fun r => r.consumption) = some 0 ∧
    (zeroPrevData[1]?.map fun r => r.consumption) = some 50 ∧
    detectAnomalies zeroPrevData =
      [{ type := AnomalyType.spike, timestamp := 86400000, consumption := 50, expected := 0,
         percentageIncrease := JVal.posInf, severity := 3,
         description := "Sudden energy spike of Infinity% detected" }] := by
  refine ⟨rfl, rfl, rfl, ?_⟩
  with_unfolding_all rfl

/-- C7: fewer than 7 readings makes `detectAnomalies` return the empty
list immediately, before any baseline or pass is computed. -/
theorem c7_short_input_empty (data : List Reading) (h : data.length < 7) :
    detectAnomalies data = [] := by
  unfold detectAnomalies
  rw [if_pos h]

/-- Witness for C7 at a concrete 6-reading input. -/
theorem c7_short_input_empty_witness :
    detectAnomalies [wkReading 0 1, wkReading 1 2, wkReading 2 3, wkReading 3 4,
      wkReading 4 5, wkReading 5 6] = [] :=
  c7_short_input_empty _ (by norm_num)

/-- C9: neither `generateRecommendations` nor `calculateSavings` reads any
field of its building-descriptor argument: with the clock fixed, both
outputs are identical across any two building descriptors. -/
theorem c9_building_data_ignored (anomalies : List Anomaly) (b1 b2 : BuildingData) (now : ℤ) :
    generateRecommendations anomalies b1 now = generateRecommendations anomalies b2 now ∧
    calculateSavings anomalies b1 = calculateSavings anomalies b2 :=
  ⟨rfl, rfl⟩

/-- `hourGroupAt` counts, as scanned by `worstHourCount`. -/
def hourCountAt (anomalies : List Anomaly) (h : ℕ) : ℕ := (hourGroupAt anomalies h).length

/-- On a nonempty anomaly list the winning count of `worstHourCount` is
positive, the winning hour is below 24 and attains the count, every hour
counts at most the winning count, and every lower hour counts strictly
less. -/
lemma worstHourCount_spec (S : List Anomaly) (hS : S ≠ []) :
    0 < (worstHourCount S).2 ∧ (worstHourCount S).1 < 24 ∧
    hourCountAt S (worstHourCount S).1 = (worstHourCount S).2 ∧
    (∀ h, hourCountAt S h ≤ (worstHourCount S).2) ∧
    (∀ h < (worstHourCount S).1, hourCountAt S h < (worstHourCount S).2) := by
  obtain ⟨a, rest, rfl⟩ := List.exists_cons_of_ne_nil hS
  set S := a :: rest with hSdef
  have hspec := worstHour_fold_spec (fun h => (hourGroupAt S h).length) (List.range 24) 0 0
    (worstHourCount S) (List.pairwise_lt_range 24) rfl
  obtain ⟨-, hbound, hdisj, hstrict⟩ := hspec
  have h0 : getHours a.timestamp < 24 := getHours_lt _
  have hmem0 : a ∈ hourGroupAt S (getHours a.timestamp) := by
    unfold hourGroupAt
    refine List.mem_filter.mpr ⟨List.mem_cons_self a rest, by simp⟩
  have hcount0 : 0 < hourCountAt S (getHours a.timestamp) :=
    List.length_pos.mpr (fun hnil => by rw [hnil] at hmem0; exact List.not_mem_nil a hmem0)
  have hle : hourCountAt S (getHours a.timestamp) ≤ (worstHourCount S).2 :=
    hbound _ (List.mem_range.mpr h0)
  have hpos : 0 < (worstHourCount S).2 := lt_of_lt_of_le hcount0 hle
  have hwin : (worstHourCount S).1 ∈ List.range 24 ∧
      hourCountAt S (worstHourCount S).1 = (worstHourCount S).2 := by
    rcases hdisj with hd | ⟨hm, he, -⟩
    · exfalso
      have : (worstHourCount S).2 = 0 := by rw [hd]
      omega
    · exact ⟨hm, he⟩
  refine ⟨hpos, List.mem_range.mp hwin.1, hwin.2, ?_, ?_⟩
  · intro h
    by_cases hh : h < 24
    · exact hbound _ (List.mem_range.mpr hh)
    · have : hourGroupAt S h = [] := by
        unfold hourGroupAt
        rw [List.filter_eq_nil]
        intro b _
        simp only [decide_eq_true_eq]
        intro hbh
        exact hh (hbh ▸ getHours_lt b.timestamp)
      unfold hourCountAt
      rw [this]
      simp only [List.length_nil]
      omega
  · intro h hh
    have hh24 : h < 24 := lt_trans hh (List.mem_range.mp hwin.1)
    exact hstrict _ (List.mem_range.mpr hh24) hh hpos

/-- On a nonempty input the schedule branch emits exactly the
recommendation built from the winning hour of `worstHourCount`. -/
lemma scheduleRecommendation_eq (S : List Anomaly) (now : ℤ) (hS : S ≠ []) :
    scheduleRecommendation S now = some
      { id := "schedule-" ++ toString now
        title := "Off-hours Energy Usage"
        action := "Review building occupancy schedule and automation system settings. Check for unauthorized equipment operation."
        impact := "Optimizing scheduling could save approximately $"
          ++ toString (jsRoundZ (avgExcessAt S (worstHourCount S).1
              * ((worstHourCount S).2 : ℚ) * 4 * (15 / 100))) ++ " per month."
        impactDollars := jsRoundZ (avgExcessAt S (worstHourCount S).1
          * ((worstHourCount S).2 : ℚ) * 4 * (15 / 100))
        urgency := if (worstHourCount S).2 > 3 then "Medium - Investigate within 2 weeks"
          else "Low - Investigate during next maintenance cycle"
        anomalyType := AnomalyType.schedule } := by
  obtain ⟨hpos, -, -, -, -⟩ := worstHourCount_spec S hS
  unfold scheduleRecommendation
  rw [if_neg (by rw [List.length_eq_zero]; exact hS)]
  simp only
  rw [if_pos hpos]

/-- A nonempty spike group always produces one spike-typed recommendation. -/
lemma spikeRecommendation_cons (a : Anomaly) (rest : List Anomaly) (now : ℤ) :
    ∃ r, spikeRecommendation (a :: rest) now = some r ∧ r.anomalyType = AnomalyType.spike :=
  ⟨_, rfl, rfl⟩

/-- A nonempty drift group always produces one drift-typed recommendation. -/
lemma driftRecommendation_cons (a : Anomaly) (rest : List Anomaly) (now : ℤ) :
    ∃ r, driftRecommendation (a :: rest) now = some r ∧ r.anomalyType = AnomalyType.drift :=
  ⟨_, rfl, rfl⟩

/-- The per-type branch output of `generateRecommendations`, as a function
of whether the type occurs in the input. -/
lemma branch_toList_map (anomalies : List Anomaly) (now : ℤ) (t : AnomalyType)
    (branch : List Anomaly → ℤ → Option Recommendation)
    (hnil : branch [] now = none)
    (hcons : ∀ a rest, ∃ r, branch (a :: rest) now = some r ∧ r.anomalyType = t) :
    ((branch (anomalies.filter fun a => decide (a.type = t)) now).toList.map
        fun r => r.anomalyType) =
      if (anomalies.any fun a => decide (a.type = t)) = true then [t] else [] := by
  rcases hf : anomalies.filter fun a => decide (a.type = t) with _ | ⟨x, xs⟩
  · rw [hf, hnil]
    rw [List.filter_eq_nil] at hf
    rw [if_neg]
    · rfl
    · simp only [List.any_eq_true, not_exists]
      intro a
      rw [not_and]
      exact fun ha => hf a ha
  · obtain ⟨r, hr, hty⟩ := hcons x xs
    rw [hf, hr]
    have hx : x ∈ anomalies.filter fun a => decide (a.type = t) := by
      rw [hf]; exact List.mem_cons_self x xs
    obtain ⟨hmem, hdec⟩ := List.mem_filter.mp hx
    rw [if_pos]
    · simp [hty]
    · rw [List.any_eq_true]
      exact ⟨x, hmem, hdec⟩

/-- C10: the recommendation list is always ordered spike, drift, schedule,
with exactly one entry per anomaly type present in the input; hence it has
at most 3 entries and its order never depends on the input order. -/
theorem c10_recommendation_order (anomalies : List Anomaly) (b : BuildingData) (now : ℤ) :
    (generateRecommendations anomalies b now).map (fun r => r.anomalyType) =
      [AnomalyType.spike, AnomalyType.drift, AnomalyType.schedule].filter
        (fun t => anomalies.any fun a => decide (a.type = t)) := by
  unfold generateRecommendations
  by_cases hlen : anomalies.length = 0
  · rw [if_pos hlen]
    rw [List.length_eq_zero] at hlen
    subst hlen
    rfl
  · rw [if_neg hlen]
    simp only [List.map_append]
    have e1 := branch_toList_map anomalies now AnomalyType.spike spikeRecommendation rfl
      (fun a rest => spikeRecommendation_cons a rest now)
    have e2 := branch_toList_map anomalies now AnomalyType.drift driftRecommendation rfl
      (fun a rest => driftRecommendation_cons a rest now)
    have e3 := branch_toList_map anomalies now AnomalyType.schedule scheduleRecommendation rfl
      (fun a rest => by
        have := scheduleRecommendation_eq (a :: rest) now (List.cons_ne_nil a rest)
        exact ⟨_, this, rfl⟩)
    rw [e1, e2, e3]
    simp only [List.filter_cons, List.filter_nil]
    split_ifs <;> simp_all <;> omega

/-- A schedule anomaly at hour 5 of day 0 (first in input order) with
excess 100. -/
def cx4a : Anomaly :=
  { type := AnomalyType.schedule, timestamp := 5 * 3600000, consumption := 110, expected := 10,
    percentageIncrease := JVal.num 1000, severity := 2, description := "" }

/-- A schedule anomaly at hour 3 of day 1 (second in input order) with
excess 10. -/
def cx4b : Anomaly :=
  { type := AnomalyType.schedule, timestamp := 27 * 3600000, consumption := 11, expected := 1,
    percentageIncrease := JVal.num 1000, severity := 2, description := "" }

/-- C4 counterexample: hours 5 and 3 each carry one flag; the first hour
encountered in input order is 5 (average excess 100, predicted impact 60),
but the emitted impact is 6, the one computed from hour 3 — the
`Object.entries` scan visits integer keys in ascending numeric order, so
ties go to the lowest hour, not to the first hour in input order. -/
theorem c4_tiebreak_counterexample :
    getHours cx4a.timestamp = 5 ∧ getHours cx4b.timestamp = 3 ∧
    hourCountAt [cx4a, cx4b] 5 = 1 ∧ hourCountAt [cx4a, cx4b] 3 = 1 ∧
    (∀ h, hourCountAt [cx4a, cx4b] h ≤ 1) ∧
    jsRoundZ (avgExcessAt [cx4a, cx4b] 5 * (1 : ℚ) * 4 * (15 / 100)) = 60 ∧
    (generateRecommendations [cx4a, cx4b] someBuilding 0).map (fun r => r.impactDollars)
      = [6] ∧
    (6 : ℤ) ≠ 60 := by
  refine ⟨by with_unfolding_all rfl, by with_unfolding_all rfl, by with_unfolding_all rfl,
    by with_unfolding_all rfl, ?_, by with_unfolding_all rfl, by with_unfolding_all rfl,
    by norm_num⟩
  intro h
  have h5 : getHours cx4a.timestamp = 5 := by with_unfolding_all rfl
  have h3 : getHours cx4b.timestamp = 3 := by with_unfolding_all rfl
  unfold hourCountAt hourGroupAt
  rw [List.filter_cons, List.filter_cons, List.filter_nil]
  split_ifs <;> simp_all <;> omega

/-- C4 (amended): the schedule branch picks the hour with the most flags,
breaking ties toward the LOWEST hour number (the ascending integer-key
enumeration order of `Object.entries`), and emits impact
`round(averageExcess * count * 4 * 0.15)` with the Medium urgency tier
when the count exceeds 3 and the Low tier otherwise. -/
theorem c4_schedule_hour_amended (S : List Anomaly) (now : ℤ) (hS : S ≠ []) :
    ∃ r w,
      scheduleRecommendation S now = some r ∧
      r.anomalyType = AnomalyType.schedule ∧
      w < 24 ∧
      0 < hourCountAt S w ∧
      (∀ h, hourCountAt S h ≤ hourCountAt S w) ∧
      (∀ h < w, hourCountAt S h < hourCountAt S w) ∧
      r.impactDollars = jsRoundZ (avgExcessAt S w * (hourCountAt S w : ℚ) * 4 * (15 / 100)) ∧
      r.urgency = (if hourCountAt S w > 3 then "Medium - Investigate within 2 weeks"
        else "Low - Investigate during next maintenance cycle") := by
  obtain ⟨hpos, hlt24, hattain, hbound, hstrict⟩ := worstHourCount_spec S hS
  refine ⟨_, (worstHourCount S).1, scheduleRecommendation_eq S now hS, rfl, hlt24, ?_, ?_, ?_, ?_, ?_⟩
  · rw [hattain]; exact hpos
  · intro h; rw [hattain]; exact hbound h
  · intro h hh; rw [hattain]; exact hstrict h hh
  · simp only [hattain]
  · simp only [hattain]

/-- Witness for the amended C4 at a concrete single-anomaly input. -/
theorem c4_schedule_hour_amended_witness :
    ∃ r w,
      scheduleRecommendation [cx4a] 0 = some r ∧
      r.anomalyType = AnomalyType.schedule ∧
      w < 24 ∧
      0 < hourCountAt [cx4a] w ∧
      (∀ h, hourCountAt [cx4a] h ≤ hourCountAt [cx4a] w) ∧
      (∀ h < w, hourCountAt [cx4a] h < hourCountAt [cx4a] w) ∧
      r.impactDollars
        = jsRoundZ (avgExcessAt [cx4a] w * (hourCountAt [cx4a] w : ℚ) * 4 * (15 / 100)) ∧
      r.urgency = (if hourCountAt [cx4a] w > 3 then "Medium - Investigate within 2 weeks"
        else "Low - Investigate during next maintenance cycle") :=
  c4_schedule_hour_amended [cx4a] 0 (List.cons_ne_nil cx4a [])

/-- C8: `calculateStats` returns all-zero stats on the empty sequence; on a
nonempty sequence it returns the arithmetic mean, the population standard
deviation (squared-deviation sum divided by the count, not `count - 1`),
and the sequence extremes as min/max. -/
theorem c8_stats_properties :
    calculateStats [] = { mean := 0, variance := 0, min := 0, max := 0 } ∧
    ∀ values : List ℚ, values ≠ [] →
      (calculateStats values).mean = values.sum / (values.length : ℚ) ∧
      (calculateStats values).stdDev = Real.sqrt
        ((((values.map fun x => (x - values.sum / (values.length : ℚ)) ^ 2).sum
          / (values.length : ℚ) : ℚ) : ℝ)) ∧
      (calculateStats values).min ∈ values ∧
      (∀ x ∈ values, (calculateStats values).min ≤ x) ∧
      (calculateStats values).max ∈ values ∧
      (∀ x ∈ values, x ≤ (calculateStats values).max) := by
  refine ⟨rfl, fun values hne => ?_⟩
  have hlen : ¬values.length = 0 := by
    rw [List.length_eq_zero]
    exact hne
  have hcs : calculateStats values =
      { mean := values.sum / (values.length : ℚ)
        variance := (values.map fun x => (x - values.sum / (values.length : ℚ)) ^ 2).sum
          / (values.length : ℚ)
        min := values.foldl min (values.headD 0)
        max := values.foldl max (values.headD 0) } := by
    unfold calculateStats
    rw [if_neg hlen]
  obtain ⟨v, vs, rfl⟩ := List.exists_cons_of_ne_nil hne
  rw [hcs]
  refine ⟨rfl, rfl, ?_, ?_, ?_, ?_⟩
  · simp only [List.headD_cons]
    rcases foldl_min_mem (v :: vs) v with h | h
    · rw [h]; exact List.mem_cons_self v vs
    · exact h
  · intro x hx
    simp only [List.headD_cons]
    exact foldl_min_le_mem (v :: vs) v x hx
  · simp only [List.headD_cons]
    rcases foldl_max_mem (v :: vs) v with h | h
    · rw [h]; exact List.mem_cons_self v vs
    · exact h
  · intro x hx
    simp only [List.headD_cons]
    exact foldl_max_ge_mem (v :: vs) v x hx

/-- Witness for C8 at the concrete sequence `[3, 1, 2]`. -/
theorem c8_stats_properties_witness :
    (calculateStats [3, 1, 2]).mean = ([3, 1, 2] : List ℚ).sum / (([3, 1, 2] : List ℚ).length : ℚ) ∧
    (calculateStats [3, 1, 2]).stdDev = Real.sqrt
      (((([3, 1, 2] : List ℚ).map
          fun x => (x - ([3, 1, 2] : List ℚ).sum / (([3, 1, 2] : List ℚ).length : ℚ)) ^ 2).sum
        / (([3, 1, 2] : List ℚ).length : ℚ) : ℚ)) ∧
    (calculateStats [3, 1, 2]).min ∈ ([3, 1, 2] : List ℚ) ∧
    (∀ x ∈ ([3, 1, 2] : List ℚ), (calculateStats [3, 1, 2]).min ≤ x) ∧
    (calculateStats [3, 1, 2]).max ∈ ([3, 1, 2] : List ℚ) ∧
    (∀ x ∈ ([3, 1, 2] : List ℚ), x ≤ (calculateStats [3, 1, 2]).max) :=
  c8_stats_properties.2 [3, 1, 2] (List.cons_ne_nil 3 [1, 2])

/-- Baseline variances are nonnegative radicands. -/
lemma baselineFor_variance_nonneg (data : List Reading) (dt : DayType) :
    0 ≤ (baselineFor data dt).variance := by
  unfold baselineFor weekdayBaseline weekendBaseline
  split
  · exact calculateStats_variance_nonneg _
  · exact calculateStats_variance_nonneg _

/-- C1: in the spike pass, reading `i ≥ 1` of a sequence of at least 7
readings is flagged if and only if its percentage increase over the
previous reading exceeds 30 AND its consumption exceeds
`mean + 2 * stdDev` of the baseline matching its day type; the emitted
anomaly has severity 3 when the increase exceeds 50 (else 2), `expected`
equal to the previous reading's consumption, and the percentage increase
rounded to one decimal. -/
theorem c1_spike_pass (data : List Reading) (i : ℕ) (cur prev : Reading) (pct : ℚ)
    (h7 : 7 ≤ data.length) (h1 : 1 ≤ i)
    (hcur : data[i]? = some cur) (hprev : data[i - 1]? = some prev)
    (hp0 : prev.consumption ≠ 0)
    (hpct : pct = (cur.consumption - prev.consumption) / prev.consumption * 100) :
    ((spikeStep (weekdayBaseline data) (weekendBaseline data) data i).isSome ↔
      (30 < pct ∧
        ((baselineFor data cur.dayType).mean : ℝ)
          + 2 * Real.sqrt ((baselineFor data cur.dayType).variance : ℝ)
          < (cur.consumption : ℝ))) ∧
    (∀ a, spikeStep (weekdayBaseline data) (weekendBaseline data) data i = some a →
      a = { type := AnomalyType.spike, timestamp := cur.timestamp,
            consumption := cur.consumption, expected := prev.consumption,
            percentageIncrease := JVal.num (jsRound (pct * 10) / 10),
            severity := if 50 < pct then 3 else 2,
            description := "Sudden energy spike of " ++ toString (jsRoundZ pct)
              ++ "% detected" }) := by
  have hbr := gtMeanPlusStd_iff cur.consumption (baselineFor data cur.dayType).mean 2
    (baselineFor data cur.dayType).variance (by norm_num)
    (baselineFor_variance_nonneg data cur.dayType)
  have hstep : spikeStep (weekdayBaseline data) (weekendBaseline data) data i =
      spikeCheck (baselineFor data cur.dayType) prev cur := by
    unfold spikeStep
    rw [hcur, hprev]
    rfl
  rw [hstep]
  unfold spikeCheck
  rw [jsPct_num cur.consumption prev.consumption hp0, ← hpct]
  by_cases hA : 30 < pct
  <;> by_cases hB : gtMeanPlusStd cur.consumption (baselineFor data cur.dayType).mean 2
        (baselineFor data cur.dayType).variance = true
  · rw [if_pos (by simp [jgt, hA, hB])]
    constructor
    · exact ⟨fun _ => ⟨hA, by
        have h2 := hbr.mp hB
        push_cast at h2 ⊢
        linarith⟩, fun _ => rfl⟩
    · intro a ha
      injection ha with ha
      rw [← ha]
      have hsev : jgt (JVal.num pct) 50 = decide (50 < pct) := rfl
      simp only [jround1, jvalRoundStr, hsev]
      congr 1
      · simp only [decide_eq_true_eq]
  · rw [if_neg (by simp [jgt, hA, hB])]
    refine ⟨?_, fun a ha => absurd ha (by simp)⟩
    simp only [Option.isSome_none, Bool.false_eq_true, false_iff]
    rintro ⟨-, hb⟩
    exact hB (hbr.mpr (by push_cast at hb ⊢; linarith))
  · rw [if_neg (by simp [jgt, hA, hB])]
    refine ⟨?_, fun a ha => absurd ha (by simp)⟩
    simp only [Option.isSome_none, Bool.false_eq_true, false_iff]
    rintro ⟨ha, -⟩
    exact hA ha
  · rw [if_neg (by simp [jgt, hA, hB])]
    refine ⟨?_, fun a ha => absurd ha (by simp)⟩
    simp only [Option.isSome_none, Bool.false_eq_true, false_iff]
    rintro ⟨ha, -⟩
    exact hA ha

/-- Seven weekday readings with a clear spike at index 1. -/
def c1data : List Reading :=
  [wkReading 0 10, wkReading 1 20, wkReading 2 5, wkReading 3 5, wkReading 4 5,
   wkReading 5 5, wkReading 6 5]

/-- Witness for C1 at index 1 of `c1data`. -/
theorem c1_spike_pass_witness :
    ((spikeStep (weekdayBaseline c1data) (weekendBaseline c1data) c1data 1).isSome ↔
      ((30 : ℚ) < 100 ∧
        ((baselineFor c1data (wkReading 1 20).dayType).mean : ℝ)
          + 2 * Real.sqrt ((baselineFor c1data (wkReading 1 20).dayType).variance : ℝ)
          < ((wkReading 1 20).consumption : ℝ))) ∧
    (∀ a, spikeStep (weekdayBaseline c1data) (weekendBaseline c1data) c1data 1 = some a →
      a = { type := AnomalyType.spike, timestamp := (wkReading 1 20).timestamp,
            consumption := (wkReading 1 20).consumption,
            expected := (wkReading 0 10).consumption,
            percentageIncrease := JVal.num (jsRound ((100 : ℚ) * 10) / 10),
            severity := if (50 : ℚ) < 100 then 3 else 2,
            description := "Sudden energy spike of " ++ toString (jsRoundZ 100)
              ++ "% detected" }) :=
  c1_spike_pass c1data 1 (wkReading 1 20) (wkReading 0 10) 100
    (by decide) (by decide) rfl rfl (by norm_num [wkReading]) (by norm_num [wkReading])

/-- C2: in the drift pass, index `i ≥ 5` of a sequence of at least 7
readings is flagged if and only if the window of 6 consecutive readings
ending at `i` is strictly increasing at every consecutive pair, the final
consumption exceeds `mean + 1.5 * stdDev` of the final reading's baseline,
and the average daily increase `((last - first)/first * 100) / 5` exceeds
3; the emitted anomaly has severity 2 when that average exceeds 5 (else
1), `expected` the window's first consumption, `consumption` the window's
last consumption and the last reading's timestamp.  A single
non-increasing pair anywhere in the window falsifies the first conjunct
and so suppresses the flag. -/
theorem c2_drift_pass (data : List Reading) (i : ℕ) (firstRead lastRead : Reading)
    (pct : ℚ)
    (h7 : 7 ≤ data.length) (h5 : windowSize ≤ i)
    (hlast : data[i]? = some lastRead) (hfirst : data[i - windowSize]? = some firstRead)
    (hf0 : firstRead.consumption ≠ 0)
    (hpct : pct = (lastRead.consumption - firstRead.consumption)
      / firstRead.consumption * 100) :
    ((driftStep (weekdayBaseline data) (weekendBaseline data) data i).isSome ↔
      ((((data.drop (i - windowSize)).take (windowSize + 1)).map
          fun r => r.consumption).Chain' (· < ·) ∧
        ((baselineFor data lastRead.dayType).mean : ℝ)
          + (3 / 2 : ℝ) * Real.sqrt ((baselineFor data lastRead.dayType).variance : ℝ)
          < (lastRead.consumption : ℝ) ∧
        3 < pct / (windowSize : ℚ))) ∧
    (∀ a, driftStep (weekdayBaseline data) (weekendBaseline data) data i = some a →
      a = { type := AnomalyType.drift, timestamp := lastRead.timestamp,
            consumption := lastRead.consumption, expected := firstRead.consumption,
            percentageIncrease := JVal.num (jsRound (pct * 10) / 10),
            severity := if 5 < pct / (windowSize : ℚ) then 2 else 1,
            description := "Gradual efficiency loss of " ++ toString (jsRoundZ pct)
              ++ "% over 5 days" }) := by
  have hbr := gtMeanPlusStd_iff lastRead.consumption (baselineFor data lastRead.dayType).mean
    (3 / 2) (baselineFor data lastRead.dayType).variance (by norm_num)
    (baselineFor_variance_nonneg data lastRead.dayType)
  have hIff := isIncreasingList_iff
    (((data.drop (i - windowSize)).take (windowSize + 1)).map fun r => r.consumption)
  have hni : ¬ i < windowSize := by omega
  have hstep : driftStep (weekdayBaseline data) (weekendBaseline data) data i =
      (if isIncreasingList (((data.drop (i - windowSize)).take (windowSize + 1)).map
            fun r => r.consumption)
          && gtMeanPlusStd lastRead.consumption (baselineFor data lastRead.dayType).mean
            (3 / 2) (baselineFor data lastRead.dayType).variance then
        if jgt (jdivPos (jsPct lastRead.consumption firstRead.consumption) (windowSize : ℚ)) 3
          then
          some { type := AnomalyType.drift, timestamp := lastRead.timestamp,
                 consumption := lastRead.consumption, expected := firstRead.consumption,
                 percentageIncrease := jround1
                   (jsPct lastRead.consumption firstRead.consumption),
                 severity := if jgt (jdivPos (jsPct lastRead.consumption firstRead.consumption)
                   (windowSize : ℚ)) 5 then 2 else 1,
                 description := "Gradual efficiency loss of "
                   ++ jvalRoundStr (jsPct lastRead.consumption firstRead.consumption)
                   ++ "% over 5 days" }
        else none
      else none) := by
    unfold driftStep
    rw [if_neg hni, hlast, hfirst]
    rfl
  rw [hstep, jsPct_num lastRead.consumption firstRead.consumption hf0, ← hpct]
  by_cases hI : isIncreasingList (((data.drop (i - windowSize)).take (windowSize + 1)).map
      fun r => r.consumption) = true
  <;> by_cases hG : gtMeanPlusStd lastRead.consumption
        (baselineFor data lastRead.dayType).mean (3 / 2)
        (baselineFor data lastRead.dayType).variance = true
  <;> by_cases hD : (3 : ℚ) < pct / (windowSize : ℚ)
  · rw [if_pos (by rw [hI, hG]; rfl), if_pos (by simp only [jdivPos, jgt, decide_eq_true_eq]; exact hD)]
    constructor
    · exact ⟨fun _ => ⟨hIff.mp hI, by
        have h2 := hbr.mp hG
        push_cast at h2 ⊢
        constructor
        · linarith
        · exact hD⟩, fun _ => rfl⟩
    · intro a ha
      injection ha with ha
      rw [← ha]
      simp only [jround1, jdivPos, jvalRoundStr, jgt]
      congr 1
      simp only [decide_eq_true_eq]
  · rw [if_pos (by rw [hI, hG]; rfl), if_neg (by simp only [jdivPos, jgt, decide_eq_true_eq]; exact hD)]
    refine ⟨?_, fun a ha => absurd ha (by simp)⟩
    simp only [Option.isSome_none, Bool.false_eq_true, false_iff]
    rintro ⟨-, -, hd⟩
    exact hD hd
  · rw [if_neg (by simp only [Bool.and_eq_true, not_and]; exact fun _ => hG)]
    refine ⟨?_, fun a ha => absurd ha (by simp)⟩
    simp only [Option.isSome_none, Bool.false_eq_true, false_iff]
    rintro ⟨-, hg, -⟩
    exact hG (hbr.mpr (by push_cast at hg ⊢; linarith))
  · rw [if_neg (by simp only [Bool.and_eq_true, not_and]; exact fun _ => hG)]
    refine ⟨?_, fun a ha => absurd ha (by simp)⟩
    simp only [Option.isSome_none, Bool.false_eq_true, false_iff]
    rintro ⟨-, hg, -⟩
    exact hG (hbr.mpr (by push_cast at hg ⊢; linarith))
  all_goals
    rw [if_neg (by simp only [Bool.and_eq_true, not_and]; exact fun hx => absurd hx hI)]
    refine ⟨?_, fun a ha => absurd ha (by simp)⟩
    simp only [Option.isSome_none, Bool.false_eq_true, false_iff]
    rintro ⟨hinc, -, -⟩
    exact hI (hIff.mpr hinc)

/-- Seven weekday readings whose last six strictly increase into a drift. -/
def c2data : List Reading :=
  [wkReading 0 10, wkReading 1 10, wkReading 2 12, wkReading 3 14, wkReading 4 16,
   wkReading 5 18, wkReading 6 30]

/-- Witness for C2 at index 6 of `c2data`. -/
theorem c2_drift_pass_witness :
    ((driftStep (weekdayBaseline c2data) (weekendBaseline c2data) c2data 6).isSome ↔
      ((((c2data.drop (6 - windowSize)).take (windowSize + 1)).map
          fun r => r.consumption).Chain' (· < ·) ∧
        ((baselineFor c2data (wkReading 6 30).dayType).mean : ℝ)
          + (3 / 2 : ℝ) * Real.sqrt ((baselineFor c2data (wkReading 6 30).dayType).variance : ℝ)
          < ((wkReading 6 30).consumption : ℝ) ∧
        3 < (200 : ℚ) / (windowSize : ℚ))) ∧
    (∀ a, driftStep (weekdayBaseline c2data) (weekendBaseline c2data) c2data 6 = some a →
      a = { type := AnomalyType.drift, timestamp := (wkReading 6 30).timestamp,
            consumption := (wkReading 6 30).consumption,
            expected := (wkReading 1 10).consumption,
            percentageIncrease := JVal.num (jsRound ((200 : ℚ) * 10) / 10),
            severity := if 5 < (200 : ℚ) / (windowSize : ℚ) then 2 else 1,
            description := "Gradual efficiency loss of " ++ toString (jsRoundZ 200)
              ++ "% over 5 days" }) :=
  c2_drift_pass c2data 6 (wkReading 1 10) (wkReading 6 30) 200
    (by decide) (by decide) rfl rfl (by norm_num [wkReading]) (by norm_num [wkReading])

/-- C3: in the schedule pass a reading is skipped when its hour's profile
has fewer than 3 samples; otherwise it is flagged if and only if its
consumption exceeds `mean + 2.5 * stdDev` of the hour's profile AND the
hour's mean is below 0.7 times the average of all 24 hourly means; the
percentage increase is computed against the hour's mean and severity is 2
when it exceeds 70 (else 1).  An hour whose mean is at least 0.7 times the
all-hour average is never flagged. -/
theorem c3_schedule_pass (data : List Reading) (entry : Reading) (p : HourStats)
    (avgAll : ℚ)
    (h7 : 7 ≤ data.length) (hmem : entry ∈ data)
    (hp : p = profileFor data entry.dayType (getHours entry.timestamp))
    (havg : avgAll = ((List.range 24).map
      fun h => (profileFor data entry.dayType h).mean).sum / 24) :
    (p.count < 3 → scheduleCheck (profileFor data entry.dayType) entry = none) ∧
    (3 ≤ p.count →
      (((scheduleCheck (profileFor data entry.dayType) entry).isSome ↔
        ((p.mean : ℝ) + (5 / 2 : ℝ) * Real.sqrt (p.variance : ℝ) < (entry.consumption : ℝ) ∧
          p.mean < (7 / 10) * avgAll)) ∧
      (p.mean ≠ 0 → ∀ a, scheduleCheck (profileFor data entry.dayType) entry = some a →
        a = { type := AnomalyType.schedule, timestamp := entry.timestamp,
              consumption := entry.consumption, expected := p.mean,
              percentageIncrease := JVal.num
                (jsRound ((entry.consumption - p.mean) / p.mean * 100 * 10) / 10),
              severity := if 70 < (entry.consumption - p.mean) / p.mean * 100 then 2 else 1,
              description := "Abnormal energy use during off-hours ("
                ++ toString (getHours entry.timestamp) ++ ":00)" }))) ∧
    ((7 / 10) * avgAll ≤ p.mean → scheduleCheck (profileFor data entry.dayType) entry = none) := by
  have hvar : 0 ≤ p.variance := by
    rw [hp]
    unfold profileFor
    exact createHourlyProfile_variance_nonneg _ _
  have hbr := gtMeanPlusStd_iff entry.consumption p.mean (5 / 2) p.variance (by norm_num) hvar
  have hcheck : scheduleCheck (profileFor data entry.dayType) entry =
      (if p.count < 3 then none
       else
        if gtMeanPlusStd entry.consumption p.mean (5 / 2) p.variance then
          if p.mean < (7 / 10) * avgAll then
            some { type := AnomalyType.schedule, timestamp := entry.timestamp,
                   consumption := entry.consumption, expected := p.mean,
                   percentageIncrease := jround1 (jsPct entry.consumption p.mean),
                   severity := if jgt (jsPct entry.consumption p.mean) 70 then 2 else 1,
                   description := "Abnormal energy use during off-hours ("
                     ++ toString (getHours entry.timestamp) ++ ":00)" }
          else none
        else none) := by
    simp only [scheduleCheck]
    rw [← hp, ← havg]
  rw [hcheck]
  by_cases hc : p.count < 3
  · rw [if_pos hc]
    exact ⟨fun _ => rfl, fun h3 => absurd hc (by omega), fun _ => rfl⟩
  · rw [if_neg hc]
    by_cases hG : gtMeanPlusStd entry.consumption p.mean (5 / 2) p.variance = true
    · rw [if_pos hG]
      by_cases hM : p.mean < (7 / 10) * avgAll
      · rw [if_pos hM]
        refine ⟨fun h => absurd h hc, fun _ => ⟨?_, ?_⟩, fun hge => absurd hM (by linarith)⟩
        · constructor
          · exact fun _ => ⟨by
              have h2 := hbr.mp hG
              push_cast at h2 ⊢
              linarith, hM⟩
          · exact fun _ => rfl
        · intro hm0 a ha
          injection ha with ha
          rw [← ha, jsPct_num entry.consumption p.mean hm0]
          simp only [jround1, jgt]
          congr 1
          simp only [decide_eq_true_eq]
      · rw [if_neg hM]
        refine ⟨fun h => absurd h hc, fun _ => ⟨?_, ?_⟩, fun _ => rfl⟩
        · simp only [Option.isSome_none, Bool.false_eq_true, false_iff]
          rintro ⟨-, hm⟩
          exact hM hm
        · intro hm0 a ha
          exact absurd ha (by simp)
    · rw [if_neg hG]
      refine ⟨fun h => absurd h hc, fun _ => ⟨?_, ?_⟩, fun _ => rfl⟩
      · simp only [Option.isSome_none, Bool.false_eq_true, false_iff]
        rintro ⟨hg, -⟩
        exact hG (hbr.mpr (by push_cast at hg ⊢; linarith))
      · intro hm0 a ha
        exact absurd ha (by simp)

/-- Witness for C3 at the first reading of `c1data`. -/
theorem c3_schedule_pass_witness :
    ((profileFor c1data (wkReading 0 10).dayType
        (getHours (wkReading 0 10).timestamp)).count < 3 →
      scheduleCheck (profileFor c1data (wkReading 0 10).dayType) (wkReading 0 10) = none) ∧
    (3 ≤ (profileFor c1data (wkReading 0 10).dayType
        (getHours (wkReading 0 10).timestamp)).count →
      (((scheduleCheck (profileFor c1data (wkReading 0 10).dayType)
          (wkReading 0 10)).isSome ↔
        (((profileFor c1data (wkReading 0 10).dayType
              (getHours (wkReading 0 10).timestamp)).mean : ℝ)
            + (5 / 2 : ℝ) * Real.sqrt ((profileFor c1data (wkReading 0 10).dayType
              (getHours (wkReading 0 10).timestamp)).variance : ℝ)
            < ((wkReading 0 10).consumption : ℝ) ∧
          (profileFor c1data (wkReading 0 10).dayType
              (getHours (wkReading 0 10).timestamp)).mean
            < (7 / 10) * (((List.range 24).map
                fun h => (profileFor c1data (wkReading 0 10).dayType h).mean).sum / 24))) ∧
      ((profileFor c1data (wkReading 0 10).dayType
          (getHours (wkReading 0 10).timestamp)).mean ≠ 0 →
        ∀ a, scheduleCheck (profileFor c1data (wkReading 0 10).dayType) (wkReading 0 10)
            = some a →
          a = { type := AnomalyType.schedule, timestamp := (wkReading 0 10).timestamp,
                consumption := (wkReading 0 10).consumption,
                expected := (profileFor c1data (wkReading 0 10).dayType
                  (getHours (wkReading 0 10).timestamp)).mean,
                percentageIncrease := JVal.num
                  (jsRound (((wkReading 0 10).consumption
                      - (profileFor c1data (wkReading 0 10).dayType
                        (getHours (wkReading 0 10).timestamp)).mean)
                    / (profileFor c1data (wkReading 0 10).dayType
                        (getHours (wkReading 0 10).timestamp)).mean * 100 * 10) / 10),
                severity := if 70 < ((wkReading 0 10).consumption
                    - (profileFor c1data (wkReading 0 10).dayType
                      (getHours (wkReading 0 10).timestamp)).mean)
                    / (profileFor c1data (wkReading 0 10).dayType
                      (getHours (wkReading 0 10).timestamp)).mean * 100 then 2 else 1,
                description := "Abnormal energy use during off-hours ("
                  ++ toString (getHours (wkReading 0 10).timestamp) ++ ":00)" }))) ∧
    ((7 / 10) * (((List.range 24).map
        fun h => (profileFor c1data (wkReading 0 10).dayType h).mean).sum / 24)
      ≤ (profileFor c1data (wkReading 0 10).dayType
          (getHours (wkReading 0 10).timestamp)).mean →
      scheduleCheck (profileFor c1data (wkReading 0 10).dayType) (wkReading 0 10) = none) :=
  c3_schedule_pass c1data (wkReading 0 10)
    (profileFor c1data (wkReading 0 10).dayType (getHours (wkReading 0 10).timestamp))
    (((List.range 24).map fun h => (profileFor c1data (wkReading 0 10).dayType h).mean).sum
      / 24)
    (by decide) (List.mem_cons_self _ _) rfl rfl
